import Mathlib

/-
Shallow embedding of `race_data.py` (racefacer_backend).

The scraper drives a browser over a profile page and per-session pages.
We model the pages the selectors can observe as plain data:
an element that `find_element` may fail to locate is an `Option`,
a `find_elements` result is a `List`, attribute text is a `String`.
Python exceptions become an explicit `Except` error channel, and Python
dict updates become prepending to an association list (so that
`List.lookup` returns the most recent write, matching dict semantics).
-/

namespace RaceFacer

/-- Model of Python's `needle in hay` on chars: does the list start with the needle. -/
def charsStartWith : List Char → List Char → Bool
  | _, [] => true
  | [], _ :: _ => false
  | a :: as, b :: bs => a == b && charsStartWith as bs

/-- Model of Python's `needle in hay` on chars: does the needle occur somewhere. -/
def charsContain : List Char → List Char → Bool
  | [], needle => needle.isEmpty
  | a :: as, needle => charsStartWith (a :: as) needle || charsContain as needle

/-- Python's substring test `needle in hay`. -/
def strContains (hay needle : String) : Bool :=
  charsContain hay.toList needle.toList

/-- Python's `str.strip()`: drop whitespace from both ends. -/
def pyStrip (s : String) : String :=
  ⟨((s.toList.dropWhile Char.isWhitespace).reverse.dropWhile Char.isWhitespace).reverse⟩

/-- Python's `str.lower()`: lowercase every character. -/
def pyLower (s : String) : String :=
  ⟨s.toList.map Char.toLower⟩

/-- Python's `<` on strings, as an executable lexicographic comparison of the
character lists (code-point order, exactly Python's string comparison). -/
def charsLt : List Char → List Char → Bool
  | [], [] => false
  | [], _ :: _ => true
  | _ :: _, [] => false
  | a :: as, b :: bs =>
    if a < b then true
    else if b < a then false
    else charsLt as bs

/-- Python's `s1 < s2` on strings. -/
def strLt (a b : String) : Bool :=
  charsLt a.toList b.toList

/-- One error value per Python exception the pipeline can raise. -/
inductive ScrapeError where
  | noSuchElement (selector : String)
  | timeoutError (selector : String)
  | indexError
  | fetchError (what : String)
deriving DecidableEq, Repr

/-- The `detail` string FastAPI serializes for an error (`str(e)` in the source). -/
def errDetail : ScrapeError → String
  | .noSuchElement s => "no such element: " ++ s
  | .timeoutError s => "timeout waiting for: " ++ s
  | .indexError => "list index out of range"
  | .fetchError s => "fetch failed: " ++ s

/-- A `.session-result-container` element on the profile page, as the code reads it:
`data-session-uuid` attribute (absent gives Python `None`), the `.position.inline`
element text, and the `span` texts under the `.date` element (`none` when the
`.date` element itself is missing). -/
structure SessionContainer where
  uuid : Option String
  positionText : Option String
  dateSpans : Option (List String)
deriving DecidableEq, Repr

/-- The profile page, restricted to what `get_profile_info` / `get_session_data` /
`process_races` query: `.username` text, the `span` texts under
`.profile-more-info`, the three statistic values, and the session containers. -/
structure ProfilePage where
  username : Option String
  moreInfoSpans : Option (List String)
  total_distance : Option String
  total_time : Option String
  favorite_track : Option String
  sessions : List SessionContainer
deriving DecidableEq, Repr

/-- The `.time_laps.first` cell of a lap row: its `class` attribute and the text
of its inner `span` (`none` when no `span` child exists). -/
structure TimeCell where
  classAttr : String
  spanText : Option String
deriving DecidableEq, Repr

/-- A `.tab_laps .row` element: the `.lap-name` text and the first-column time cell,
each `none` when the sub-element is missing. -/
structure LapRow where
  lapName : Option String
  timeCell : Option TimeCell
deriving DecidableEq, Repr

/-- The `.track-kart` block of a session page: `.track-name` text and the texts of
its `div` descendants (the code takes the last one as the kart label). -/
structure TrackKart where
  trackName : Option String
  divTexts : List String
deriving DecidableEq, Repr

/-- A per-session page: whether the `.table_content.session_content` marker renders
before the wait times out, the `.track-kart` block, and the lap rows. -/
structure SessionPage where
  hasTable : Bool
  trackKart : Option TrackKart
  lapRows : List LapRow
deriving DecidableEq, Repr

/-- The assembled per-race dict of `get_lap_data` (line 148). -/
structure RaceInfo where
  race_id : String
  position : String
  date : String
  time : String
  track : String
  kart : String
  lap_times : List (String × String)
  best_time : String
deriving DecidableEq, Repr

/-- The `profile_info` dict: driver name, location, the three statistics in dict
insertion order, and `Total Races` (set later by `process_races`, line 198). -/
structure ProfileInfo where
  driverName : String
  location : String
  statistics : List (String × String)
  totalRaces : Nat
deriving DecidableEq, Repr

/-- The success payload of `process_races` (lines 205-208). -/
structure ExtractionResult where
  profile_info : ProfileInfo
  races_data : List RaceInfo
deriving DecidableEq, Repr

/-- The whole world one request can observe: whether launching Chrome succeeds,
whether navigating to the profile URL succeeds, the profile page, and the
per-session pages keyed by race id. -/
structure World where
  chromeOk : Bool
  navOk : Bool
  profile : ProfilePage
  sessionPages : List (String × SessionPage)
deriving DecidableEq, Repr

/-- One iteration of the `get_session_data` loop (lines 74-86): skip the container
when `.position.inline` is missing, record the position, then record the date pair
unless the `.date` element is missing or has fewer than two spans (the
`IndexError`/`NoSuchElementException` is caught and the loop continues, keeping
the position written just before). New writes are prepended so `List.lookup`
sees the latest, like a dict. -/
def session_step (pd : List (Option String × String) × List (Option String × (String × String)))
    (s : SessionContainer) :
    List (Option String × String) × List (Option String × (String × String)) :=
  match s.positionText with
  | none => pd
  | some ptxt =>
    let positions := (s.uuid, pyStrip ptxt) :: pd.1
    match s.dateSpans with
    | none => (positions, pd.2)
    | some spans =>
      match spans with
      | d :: t :: _ => (positions, (s.uuid, (pyStrip d, pyStrip t)) :: pd.2)
      | _ => (positions, pd.2)

/-- Model of `get_session_data` (lines 66-91): fold the per-container step over the page's
session containers, producing the positions and dates maps. -/
def get_session_data (sessions : List SessionContainer) :
    List (Option String × String) × List (Option String × (String × String)) :=
  sessions.foldl session_step ([], [])

/-- Model of `get_profile_info` (lines 93-120): any missing element raises, the first span
under `.profile-more-info` raises `IndexError` when absent; every text is
`.strip()`ed. `Total Races` is filled in later, so it starts at 0 here. -/
def get_profile_info (p : ProfilePage) : Except ScrapeError ProfileInfo :=
  match p.username with
  | none => .error (.noSuchElement "username")
  | some nm =>
    match p.moreInfoSpans with
    | none => .error (.noSuchElement "profile-more-info")
    | some spans =>
      match spans.head? with
      | none => .error .indexError
      | some loc =>
        match p.total_distance with
        | none => .error (.noSuchElement "total_distance")
        | some d =>
          match p.total_time with
          | none => .error (.noSuchElement "total_time")
          | some t =>
            match p.favorite_track with
            | none => .error (.noSuchElement "favorite_track")
            | some f =>
              .ok { driverName := pyStrip nm, location := pyStrip loc,
                    statistics := [("Total Distance", pyStrip d),
                                   ("Total Drive Hours", pyStrip t),
                                   ("Preferred Track", pyStrip f)],
                    totalRaces := 0 }

/-- What one iteration of the `_extract_lap_times` loop (lines 171-182) appends:
skip on missing `.lap-name`, missing time cell, a `pit` marker in the cell's
lowercased class attribute, a missing inner `span`, or an empty label/time
(Python truthiness at line 178). -/
def rowEntry : LapRow → Option (String × String)
  | ⟨none, _⟩ => none
  | ⟨some _, none⟩ => none
  | ⟨some lapNum, some cell⟩ =>
    if strContains (pyLower cell.classAttr) "pit" then none
    else
      match cell.spanText with
      | none => none
      | some lapTime =>
        if lapNum ≠ "" ∧ lapTime ≠ "" then some (lapNum, lapTime) else none

/-- Model of `_extract_lap_times` (lines 165-184): each row contributes at most one pair,
in row order. -/
def extract_lap_times (rows : List LapRow) : List (String × String) :=
  rows.filterMap rowEntry

/-- Is the row's first-column time cell flagged as a pit lap (line 176)? -/
def isPitRow (r : LapRow) : Bool :=
  match r.timeCell with
  | none => false
  | some cell => strContains (pyLower cell.classAttr) "pit"

/-- One comparison step of Python's `min`: keep the new element only when its
key is strictly smaller, so the first minimum wins ties. -/
def minStep (b y : String × String) : String × String :=
  if strLt y.2 b.2 then y else b

/-- Python's `min(lap_times, key=lambda x: x[1])` (line 142): first element with
the smallest second component, `none` on an empty list (where Python raises,
which line 141 guards against). -/
def py_min_snd : List (String × String) → Option (String × String)
  | [] => none
  | x :: xs => some (xs.foldl minStep x)

/-- Lines 141-146: `best_time` is the time of the minimum entry, or the sentinel. -/
def best_time_of (laps : List (String × String)) : String :=
  match py_min_snd laps with
  | some p => p.2
  | none => "Not found"

/-- Model of `get_lap_data` (lines 122-163): navigate to the session page (a missing page
never renders the table marker), wait for `.table_content.session_content`,
look up position and date with `Not found` defaults, read track and kart
(last `div` text; `[-1]` on an empty list raises `IndexError`), extract lap
times and the best time, and assemble the record. Any raise propagates
(lines 161-163). -/
def get_lap_data (pages : List (String × SessionPage))
    (positions : List (Option String × String))
    (dates : List (Option String × (String × String)))
    (rid : String) : Except ScrapeError RaceInfo :=
  match pages.lookup rid with
  | none => .error (.timeoutError "table_content.session_content")
  | some page =>
    if page.hasTable = false then .error (.timeoutError "table_content.session_content")
    else
      let position := (positions.lookup (some rid)).getD "Not found"
      let dt := (dates.lookup (some rid)).getD ("Not found", "Not found")
      match page.trackKart with
      | none => .error (.noSuchElement "track-kart")
      | some tk =>
        match tk.trackName with
        | none => .error (.noSuchElement "track-name")
        | some tn =>
          match tk.divTexts.getLast? with
          | none => .error .indexError
          | some kd =>
            let laps := extract_lap_times page.lapRows
            .ok { race_id := rid, position := position,
                  date := dt.1, time := dt.2,
                  track := pyStrip tn, kart := pyStrip kd,
                  lap_times := laps, best_time := best_time_of laps }

/-- Line 195: the authoritative race enumeration keeps only containers whose
`data-session-uuid` attribute is present and truthy (non-empty). -/
def race_ids_of (sessions : List SessionContainer) : List String :=
  sessions.filterMap fun s =>
    match s.uuid with
    | none => none
    | some u => if u = "" then none else some u

/-- Does a container carry a non-empty session uuid attribute? -/
def has_uuid (s : SessionContainer) : Bool :=
  match s.uuid with
  | none => false
  | some u => u ≠ ""

/-- The `for race_id in race_ids` loop of `process_races` (lines 200-203): each
successful `get_lap_data` appends its record, the first raise aborts the run. -/
def run_races (pages : List (String × SessionPage))
    (positions : List (Option String × String))
    (dates : List (Option String × (String × String)))
    : List String → Except ScrapeError (List RaceInfo)
  | [] => .ok []
  | rid :: rest =>
    match get_lap_data pages positions dates rid with
    | .error e => .error e
    | .ok info =>
      match run_races pages positions dates rest with
      | .error e => .error e
      | .ok others => .ok (info :: others)

/-- Model of `process_races` (lines 186-216). The second component counts `driver.quit()`
calls: the `finally` block quits only when `self.driver` was assigned, which
happens exactly when the Chrome launch succeeded; afterwards it quits once on
every path, success or raise. -/
def process_races (w : World) : Except ScrapeError ExtractionResult × Nat :=
  if w.chromeOk = false then (.error (.fetchError "chrome launch"), 0)
  else if w.navOk = false then (.error (.fetchError "profile navigation"), 1)
  else
    let pd := get_session_data w.profile.sessions
    match get_profile_info w.profile with
    | .error e => (.error e, 1)
    | .ok pi0 =>
      let rids := race_ids_of w.profile.sessions
      let profileInfo := { pi0 with totalRaces := rids.length }
      match run_races w.sessionPages pd.1 pd.2 rids with
      | .error e => (.error e, 1)
      | .ok races => (.ok { profile_info := profileInfo, races_data := races }, 1)

/-- The FastAPI layer's view of a response: 200 with a body, or an error status
with a `detail` string. -/
inductive ApiResponse where
  | success (body : ExtractionResult)
  | failure (status : Nat) (detail : String)
deriving DecidableEq, Repr

/-- Model of the `get_race_data` endpoint (lines 218-231): every exception becomes
`HTTPException(status_code=500, detail=str(e))`. -/
def get_race_data (w : World) : ApiResponse :=
  match (process_races w).1 with
  | .ok data => .success data
  | .error e => .failure 500 (errDetail e)

/-- The status code the client observes (`none` only for a 200 success). -/
def statusOf : ApiResponse → Option Nat
  | .success _ => none
  | .failure s _ => some s

/-- Extract the location field from a profile extraction outcome. -/
def profileLocation : Except ScrapeError ProfileInfo → Option String
  | .ok p => some p.location
  | .error _ => none

def pageC1 : SessionPage :=
  { hasTable := true,
    trackKart := some { trackName := some " Speed Arena ", divTexts := [" Speed Arena ", " Kart 7 "] },
    lapRows :=
      [ { lapName := some "1", timeCell := some { classAttr := "time_laps first", spanText := some "1:02.3" } },
        { lapName := some "2", timeCell := some { classAttr := "time_laps first PIT", spanText := some "0:10.0" } },
        { lapName := some "3", timeCell := some { classAttr := "time_laps first", spanText := some "1:01.9" } },
        { lapName := some "", timeCell := some { classAttr := "time_laps first", spanText := some "0:01.0" } },
        { lapName := some "4", timeCell := none } ] }

def infoC1 : RaceInfo :=
  { race_id := "r1", position := "Not found", date := "Not found", time := "Not found",
    track := "Speed Arena", kart := "Kart 7",
    lap_times := [("1", "1:02.3"), ("3", "1:01.9")], best_time := "1:01.9" }

def pageC2 : SessionPage :=
  { hasTable := true,
    trackKart := some { trackName := some "Indoor Track", divTexts := ["Indoor Track", "Kart 2"] },
    lapRows :=
      [ { lapName := some "1", timeCell := some { classAttr := "time_laps first pit-stop", spanText := some "0:05.0" } },
        { lapName := some "2", timeCell := some { classAttr := "time_laps first", spanText := some "1:11.2" } },
        { lapName := some "3", timeCell := some { classAttr := "time_laps first", spanText := some "1:10.8" } } ] }

def infoC2 : RaceInfo :=
  { race_id := "r2", position := "Not found", date := "Not found", time := "Not found",
    track := "Indoor Track", kart := "Kart 2",
    lap_times := [("2", "1:11.2"), ("3", "1:10.8")], best_time := "1:10.8" }

def rowsC10 : List LapRow :=
  [ { lapName := some "1", timeCell := some { classAttr := "time_laps first", spanText := some "" } },
    { lapName := some "", timeCell := some { classAttr := "time_laps first", spanText := some "1:03.0" } },
    { lapName := some "3", timeCell := some { classAttr := "time_laps first", spanText := some "1:01.9" } } ]

def isOk {α : Type} : Except ScrapeError α → Bool
  | .ok _ => true
  | .error _ => false

def worldC5 : World :=
  { chromeOk := true, navOk := true,
    profile :=
      { username := some " Alice ", moreInfoSpans := some ["Berlin"],
        total_distance := some "120 km", total_time := some "4h",
        favorite_track := some "Speed Arena",
        sessions :=
          [ { uuid := some "s1", positionText := some "2", dateSpans := some ["Jan 1", "10:00"] },
            { uuid := none, positionText := some "9", dateSpans := some ["Jan 9", "09:00"] },
            { uuid := some "s2", positionText := some "5", dateSpans := some ["Feb 2", "11:30"] } ] },
    sessionPages :=
      [ ("s1", { hasTable := true,
                 trackKart := some { trackName := some "Speed Arena", divTexts := ["Speed Arena", "Kart 4"] },
                 lapRows :=
                   [ { lapName := some "1", timeCell := some { classAttr := "time_laps first", spanText := some "1:02.3" } },
                     { lapName := some "2", timeCell := some { classAttr := "time_laps first", spanText := some "1:01.9" } } ] }),
        ("s2", { hasTable := true,
                 trackKart := some { trackName := some "Indoor Track", divTexts := ["Indoor Track", "Kart 5"] },
                 lapRows := [] }) ] }

def resC5 : ExtractionResult :=
  { profile_info :=
      { driverName := "Alice", location := "Berlin",
        statistics := [("Total Distance", "120 km"), ("Total Drive Hours", "4h"),
                       ("Preferred Track", "Speed Arena")],
        totalRaces := 2 },
    races_data :=
      [ { race_id := "s1", position := "2", date := "Jan 1", time := "10:00",
          track := "Speed Arena", kart := "Kart 4",
          lap_times := [("1", "1:02.3"), ("2", "1:01.9")], best_time := "1:01.9" },
        { race_id := "s2", position := "5", date := "Feb 2", time := "11:30",
          track := "Indoor Track", kart := "Kart 5",
          lap_times := [], best_time := "Not found" } ] }

def worldC6 : World :=
  { chromeOk := true, navOk := true,
    profile :=
      { username := some "Bob", moreInfoSpans := some ["Paris"],
        total_distance := some "10 km", total_time := some "1h",
        favorite_track := some "T",
        sessions :=
          [ { uuid := some "s1", positionText := some "1", dateSpans := some ["Jan 1", "10:00"] } ] },
    sessionPages := [] }

def worldC9 : World :=
  { chromeOk := true, navOk := true,
    profile :=
      { username := some "Carol", moreInfoSpans := some ["Rome"],
        total_distance := some "50 km", total_time := some "2h",
        favorite_track := some "Oval",
        sessions :=
          [ { uuid := some "a1", positionText := some "3", dateSpans := some ["Mar 3", "12:00"] },
            { uuid := some "", positionText := some "7", dateSpans := some ["Mar 4", "13:00"] },
            { uuid := none, positionText := some "8", dateSpans := some ["Mar 5", "14:00"] } ] },
    sessionPages :=
      [ ("a1", { hasTable := true,
                 trackKart := some { trackName := some "Oval", divTexts := ["Oval", "Kart 1"] },
                 lapRows := [] }) ] }

def resC9 : ExtractionResult :=
  { profile_info :=
      { driverName := "Carol", location := "Rome",
        statistics := [("Total Distance", "50 km"), ("Total Drive Hours", "2h"),
                       ("Preferred Track", "Oval")],
        totalRaces := 1 },
    races_data :=
      [ { race_id := "a1", position := "3", date := "Mar 3", time := "12:00",
          track := "Oval", kart := "Kart 1", lap_times := [], best_time := "Not found" } ] }

def worldC3 : World :=
  { chromeOk := true, navOk := true,
    profile :=
      { username := none, moreInfoSpans := some ["Madrid"],
        total_distance := some "5 km", total_time := some "1h",
        favorite_track := some "T", sessions := [] },
    sessionPages := [] }

def pageC8 : ProfilePage :=
  { username := some "Bob", moreInfoSpans := some [" London, "],
    total_distance := some "9 km", total_time := some "3h",
    favorite_track := some "City Loop", sessions := [] }

def infoC8 : ProfileInfo :=
  { driverName := "Bob", location := "London,",
    statistics := [("Total Distance", "9 km"), ("Total Drive Hours", "3h"),
                   ("Preferred Track", "City Loop")],
    totalRaces := 0 }

def sessC4 : SessionContainer :=
  { uuid := some "s1", positionText := none, dateSpans := some ["Jan 1", "10:00"] }

def worldC4 : World :=
  { chromeOk := true, navOk := true,
    profile :=
      { username := some "Dan", moreInfoSpans := some ["Oslo"],
        total_distance := some "7 km", total_time := some "2h",
        favorite_track := some "T", sessions := [sessC4] },
    sessionPages :=
      [ ("s1", { hasTable := true,
                 trackKart := some { trackName := some "T", divTexts := ["T", "Kart 3"] },
                 lapRows := [] }) ] }

def dateShort (s : SessionContainer) : Bool :=
  match s.dateSpans with
  | none => true
  | some [] => true
  | some [_] => true
  | some (_ :: _ :: _) => false

def firstRaceDate : Except ScrapeError ExtractionResult → Option String
  | .ok res => res.races_data.head?.map RaceInfo.date
  | .error _ => none

def sessC4w : SessionContainer :=
  { uuid := some "w1", positionText := some " 4 ", dateSpans := none }

def pagesC4w : List (String × SessionPage) :=
  [ ("w1", { hasTable := true,
             trackKart := some { trackName := some "Loop", divTexts := ["Loop", "Kart 9"] },
             lapRows :=
               [ { lapName := some "1", timeCell := some { classAttr := "time_laps first", spanText := some "1:05.0" } } ] }) ]

def infoC4w : RaceInfo :=
  { race_id := "w1", position := "4", date := "Not found", time := "Not found",
    track := "Loop", kart := "Kart 9",
    lap_times := [("1", "1:05.0")], best_time := "1:05.0" }


theorem charsLt_iff (l₁ l₂ : List Char) : charsLt l₁ l₂ = true ↔ l₁ < l₂ := by
  show charsLt l₁ l₂ = true ↔ List.Lex (· < ·) l₁ l₂
  induction l₁ generalizing l₂ with
  | nil =>
    cases l₂ with
    | nil =>
      simp only [charsLt]
      constructor
      · intro h; cases h
      · intro h; cases h
    | cons b bs =>
      simp only [charsLt, true_iff]
      exact List.Lex.nil
  | cons a as ih =>
    cases l₂ with
    | nil =>
      simp only [charsLt]
      constructor
      · intro h; cases h
      · intro h; cases h
    | cons b bs =>
      by_cases hab : a < b
      · simp only [charsLt, hab, if_pos, true_iff]
        exact List.Lex.rel hab
      · by_cases hba : b < a
        · simp only [charsLt, if_neg hab, if_pos hba, Bool.false_eq_true, false_iff]
          intro h
          cases h with
          | cons h' => exact lt_irrefl a hba
          | rel h' => exact hab h'
        · have hasb : a = b := le_antisymm (le_of_not_lt hba) (le_of_not_lt hab)
          subst hasb
          simp only [charsLt, if_neg hab, if_neg hba]
          rw [ih bs]
          constructor
          · intro h; exact List.Lex.cons h
          · intro h
            cases h with
            | cons h' => exact h'
            | rel h' => exact absurd h' hab

theorem strLt_iff (a b : String) : strLt a b = true ↔ a < b := by
  rw [String.lt_iff_toList_lt]
  exact charsLt_iff a.toList b.toList

theorem le_of_strLt_eq_false {a b : String} (h : strLt b a = false) : a ≤ b := by
  intro hlt
  rw [← strLt_iff] at hlt
  rw [h] at hlt
  cases hlt

theorem le_of_strLt_eq_true {a b : String} (h : strLt a b = true) : a ≤ b :=
  le_of_lt ((strLt_iff a b).mp h)

theorem foldl_minStep_spec (xs : List (String × String)) (b : String × String) :
    (xs.foldl minStep b ∈ b :: xs) ∧ (xs.foldl minStep b).2 ≤ b.2 ∧
      ∀ q ∈ xs, (xs.foldl minStep b).2 ≤ q.2 := by
  induction xs generalizing b with
  | nil =>
    refine ⟨List.mem_cons_self _ _, le_refl _, ?_⟩
    intro q hq; cases hq
  | cons y ys ih =>
    have step : List.foldl minStep b (y :: ys) = List.foldl minStep (minStep b y) ys := rfl
    obtain ⟨hmem, hle, hall⟩ := ih (minStep b y)
    have hstep_le_b : (minStep b y).2 ≤ b.2 := by
      by_cases h : strLt y.2 b.2
      · simp only [minStep, if_pos h]
        exact le_of_strLt_eq_true h
      · simp only [minStep, if_neg h]
        exact le_refl _
    have hstep_le_y : (minStep b y).2 ≤ y.2 := by
      by_cases h : strLt y.2 b.2
      · simp only [minStep, if_pos h]
        exact le_refl _
      · simp only [minStep, if_neg h]
        exact le_of_strLt_eq_false (Bool.not_eq_true _ ▸ eq_false_of_ne_true h)
    refine ⟨?_, ?_, ?_⟩
    · rw [step]
      rcases List.mem_cons.mp hmem with h | h
      · rw [h]
        by_cases hc : strLt y.2 b.2
        · simp only [minStep, if_pos hc]
          exact List.mem_cons_of_mem _ (List.mem_cons_self _ _)
        · simp only [minStep, if_neg hc]
          exact List.mem_cons_self _ _
      · exact List.mem_cons_of_mem _ (List.mem_cons_of_mem _ h)
    · rw [step]; exact le_trans hle hstep_le_b
    · rw [step]
      intro q hq
      rcases List.mem_cons.mp hq with h | h
      · rw [h]; exact le_trans hle hstep_le_y
      · exact hall q h

theorem py_min_snd_spec (laps : List (String × String)) (hne : laps ≠ []) :
    ∃ p, py_min_snd laps = some p ∧ p ∈ laps ∧ ∀ q ∈ laps, p.2 ≤ q.2 := by
  cases laps with
  | nil => exact absurd rfl hne
  | cons x xs =>
    obtain ⟨hmem, hle, hall⟩ := foldl_minStep_spec xs x
    refine ⟨xs.foldl minStep x, rfl, hmem, ?_⟩
    intro q hq
    rcases List.mem_cons.mp hq with h | h
    · rw [h]; exact hle
    · exact hall q h

theorem mem_extract_lap_times {rows : List LapRow} {p : String × String}
    (h : p ∈ extract_lap_times rows) : ∃ r ∈ rows, rowEntry r = some p := by
  simpa using List.mem_filterMap.mp h

theorem rowEntry_not_pit {r : LapRow} {p : String × String} (h : rowEntry r = some p) :
    isPitRow r = false := by
  obtain ⟨ln, tc⟩ := r
  cases ln with
  | none => exact Option.noConfusion h
  | some lapNum =>
    cases tc with
    | none => exact Option.noConfusion h
    | some cell =>
      by_cases hpit : strContains (pyLower cell.classAttr) "pit" = true
      · simp only [rowEntry, hpit, if_true] at h
        exact Option.noConfusion h
      · simp only [isPitRow]
        exact eq_false_of_ne_true hpit

theorem rowEntry_fields {r : LapRow} {p : String × String} (h : rowEntry r = some p) :
    r.lapName = some p.1 ∧ p.1 ≠ "" ∧ p.2 ≠ "" := by
  obtain ⟨ln, tc⟩ := r
  cases ln with
  | none => exact Option.noConfusion h
  | some lapNum =>
    cases tc with
    | none => exact Option.noConfusion h
    | some cell =>
      by_cases hpit : strContains (pyLower cell.classAttr) "pit" = true
      · simp only [rowEntry, hpit, if_true] at h
        exact Option.noConfusion h
      · simp only [rowEntry, eq_false_of_ne_true hpit, Bool.false_eq_true, if_false] at h
        cases hs : cell.spanText with
        | none =>
          simp only [hs] at h
          exact Option.noConfusion h
        | some lapTime =>
          simp only [hs] at h
          by_cases hne : lapNum ≠ "" ∧ lapTime ≠ ""
          · rw [if_pos hne] at h
            cases h
            exact ⟨rfl, hne⟩
          · rw [if_neg hne] at h
            exact Option.noConfusion h

theorem get_lap_data_ok {pages : List (String × SessionPage)}
    {positions : List (Option String × String)}
    {dates : List (Option String × (String × String))}
    {rid : String} {info : RaceInfo}
    (h : get_lap_data pages positions dates rid = .ok info) :
    ∃ page tk tn kd, pages.lookup rid = some page ∧ page.hasTable = true ∧
      page.trackKart = some tk ∧ tk.trackName = some tn ∧ tk.divTexts.getLast? = some kd ∧
      info = { race_id := rid,
               position := (positions.lookup (some rid)).getD "Not found",
               date := ((dates.lookup (some rid)).getD ("Not found", "Not found")).1,
               time := ((dates.lookup (some rid)).getD ("Not found", "Not found")).2,
               track := pyStrip tn, kart := pyStrip kd,
               lap_times := extract_lap_times page.lapRows,
               best_time := best_time_of (extract_lap_times page.lapRows) } := by
  cases hp : pages.lookup rid with
  | none =>
    simp only [get_lap_data, hp] at h
    exact Except.noConfusion h
  | some page =>
    simp only [get_lap_data, hp] at h
    by_cases ht : page.hasTable = false
    · simp only [ht, if_true] at h
      exact Except.noConfusion h
    · have ht' : page.hasTable = true := by revert ht; cases page.hasTable <;> simp
      simp only [ht', Bool.true_eq_false, if_false] at h
      cases htk : page.trackKart with
      | none =>
        simp only [htk] at h
        exact Except.noConfusion h
      | some tk =>
        simp only [htk] at h
        cases htn : tk.trackName with
        | none =>
          simp only [htn] at h
          exact Except.noConfusion h
        | some tn =>
          simp only [htn] at h
          cases hkd : tk.divTexts.getLast? with
          | none =>
            simp only [hkd] at h
            exact Except.noConfusion h
          | some kd =>
            simp only [hkd, Except.ok.injEq] at h
            exact ⟨page, tk, tn, kd, rfl, ht', htk, htn, hkd, h.symm⟩

theorem best_time_of_spec (laps : List (String × String)) (hne : laps ≠ []) :
    best_time_of laps ∈ laps.map Prod.snd ∧ ∀ t ∈ laps.map Prod.snd, best_time_of laps ≤ t := by
  obtain ⟨p, hmin, hmem, hall⟩ := py_min_snd_spec laps hne
  have hbt : best_time_of laps = p.2 := by
    unfold best_time_of
    rw [hmin]
  rw [hbt]
  constructor
  · exact List.mem_map.mpr ⟨p, hmem, rfl⟩
  · intro t ht
    obtain ⟨q, hq, hqt⟩ := List.mem_map.mp ht
    rw [← hqt]
    exact hall q hq

/-- C1: for every assembled race record, `best_time` equals the lexicographically
smallest time string among the entries of `lap_times` when `lap_times` is
non-empty, and equals the sentinel `"Not found"` when `lap_times` is empty. -/
theorem C1_best_time_min {pages : List (String × SessionPage)}
    {positions : List (Option String × String)}
    {dates : List (Option String × (String × String))}
    {rid : String} {info : RaceInfo}
    (h : get_lap_data pages positions dates rid = .ok info) :
    (info.lap_times = [] → info.best_time = "Not found") ∧
    (info.lap_times ≠ [] →
      info.best_time ∈ info.lap_times.map Prod.snd ∧
      ∀ t ∈ info.lap_times.map Prod.snd, info.best_time ≤ t) := by
  obtain ⟨page, tk, tn, kd, hp, ht, htk, htn, hkd, hinfo⟩ := get_lap_data_ok h
  subst hinfo
  dsimp only
  constructor
  · intro hemp
    rw [hemp]
    rfl
  · intro hne
    exact best_time_of_spec _ hne

/-- Witness for C1 at a concrete session page with two counted laps. -/
theorem C1_best_time_min_witness :
    get_lap_data [("r1", pageC1)] [] [] "r1" = .ok infoC1 ∧
    ((infoC1.lap_times = [] → infoC1.best_time = "Not found") ∧
     (infoC1.lap_times ≠ [] →
       infoC1.best_time ∈ infoC1.lap_times.map Prod.snd ∧
       ∀ t ∈ infoC1.lap_times.map Prod.snd, infoC1.best_time ≤ t)) :=
  ⟨rfl, @C1_best_time_min [("r1", pageC1)] [] [] "r1" infoC1 rfl⟩

/-- C2: a lap row whose first-column time cell is flagged as a pit-stop lap is
never included in the extracted `lap_times` and is never selected as
`best_time`: every entry comes from a non-pit row, and `best_time` is either
the sentinel or the time of one of those entries. -/
theorem C2_pit_rows_excluded {pages : List (String × SessionPage)}
    {positions : List (Option String × String)}
    {dates : List (Option String × (String × String))}
    {rid : String} {page : SessionPage} {info : RaceInfo}
    (hpage : pages.lookup rid = some page)
    (h : get_lap_data pages positions dates rid = .ok info) :
    (∀ p ∈ info.lap_times, ∃ r ∈ page.lapRows, isPitRow r = false ∧ rowEntry r = some p) ∧
    (info.best_time = "Not found" ∨ ∃ p ∈ info.lap_times, info.best_time = p.2) := by
  obtain ⟨page', tk, tn, kd, hp, ht, htk, htn, hkd, hinfo⟩ := get_lap_data_ok h
  rw [hpage] at hp
  have hpp : page = page' := Option.some.inj hp
  subst hpp
  subst hinfo
  dsimp only
  constructor
  · intro p hmem
    obtain ⟨r, hr, hre⟩ := mem_extract_lap_times hmem
    exact ⟨r, hr, rowEntry_not_pit hre, hre⟩
  · by_cases hemp : extract_lap_times page.lapRows = []
    · left
      rw [hemp]
      rfl
    · right
      obtain ⟨p, hmin, hmem, hall⟩ := py_min_snd_spec _ hemp
      refine ⟨p, hmem, ?_⟩
      unfold best_time_of
      rw [hmin]

/-- Witness for C2 at a concrete page mixing a pit row with counted rows. -/
theorem C2_pit_rows_excluded_witness :
    ([("r2", pageC2)] : List (String × SessionPage)).lookup "r2" = some pageC2 ∧
    get_lap_data [("r2", pageC2)] [] [] "r2" = .ok infoC2 ∧
    ((∀ p ∈ infoC2.lap_times, ∃ r ∈ pageC2.lapRows, isPitRow r = false ∧ rowEntry r = some p) ∧
     (infoC2.best_time = "Not found" ∨ ∃ p ∈ infoC2.lap_times, infoC2.best_time = p.2)) :=
  ⟨rfl, rfl, @C2_pit_rows_excluded [("r2", pageC2)] [] [] "r2" pageC2 infoC2 rfl rfl⟩

/-- C10: every pair appended to `lap_times` has a non-empty lap label and a
non-empty lap time string; a non-pit row with an empty label or time text is
dropped (it can contribute no entry whose component is empty). -/
theorem C10_lap_entries_nonempty (rows : List LapRow) (p : String × String)
    (h : p ∈ extract_lap_times rows) : p.1 ≠ "" ∧ p.2 ≠ "" := by
  obtain ⟨r, hr, hre⟩ := mem_extract_lap_times h
  exact (rowEntry_fields hre).2

/-- Witness for C10: the row with an empty span text and the row with an empty
label are dropped, and the surviving entry has non-empty components. -/
theorem C10_lap_entries_nonempty_witness :
    (("3", "1:01.9") ∈ extract_lap_times rowsC10) ∧ ("3" ≠ "" ∧ "1:01.9" ≠ "") :=
  ⟨by decide, C10_lap_entries_nonempty rowsC10 ("3", "1:01.9") (by decide)⟩

theorem get_lap_data_race_id {pages : List (String × SessionPage)}
    {positions : List (Option String × String)}
    {dates : List (Option String × (String × String))}
    {rid : String} {info : RaceInfo}
    (h : get_lap_data pages positions dates rid = .ok info) : info.race_id = rid := by
  obtain ⟨page, tk, tn, kd, hp, ht, htk, htn, hkd, hinfo⟩ := get_lap_data_ok h
  subst hinfo
  rfl

theorem run_races_ok_map {pages : List (String × SessionPage)}
    {positions : List (Option String × String)}
    {dates : List (Option String × (String × String))}
    {rids : List String} {races : List RaceInfo}
    (h : run_races pages positions dates rids = .ok races) :
    races.map RaceInfo.race_id = rids := by
  induction rids generalizing races with
  | nil =>
    simp only [run_races, Except.ok.injEq] at h
    subst h
    rfl
  | cons rid rest ih =>
    cases hg : get_lap_data pages positions dates rid with
    | error e =>
      simp only [run_races, hg] at h
      exact Except.noConfusion h
    | ok info =>
      simp only [run_races, hg] at h
      cases hr : run_races pages positions dates rest with
      | error e =>
        simp only [hr] at h
        exact Except.noConfusion h
      | ok others =>
        simp only [hr, Except.ok.injEq] at h
        subst h
        simp only [List.map_cons]
        rw [get_lap_data_race_id hg, ih hr]

theorem run_races_fails {pages : List (String × SessionPage)}
    {positions : List (Option String × String)}
    {dates : List (Option String × (String × String))}
    {rids : List String} {rid : String} {e : ScrapeError}
    (hmem : rid ∈ rids)
    (hfail : get_lap_data pages positions dates rid = .error e) :
    isOk (run_races pages positions dates rids) = false := by
  induction rids with
  | nil => cases hmem
  | cons r rest ih =>
    rcases List.mem_cons.mp hmem with h | h
    · subst h
      simp only [run_races, hfail]
      rfl
    · cases hg : get_lap_data pages positions dates r with
      | error e2 =>
        simp only [run_races, hg]
        rfl
      | ok info =>
        simp only [run_races, hg]
        cases hr : run_races pages positions dates rest with
        | error e2 => rfl
        | ok others =>
          have hih := ih h
          rw [hr] at hih
          exact absurd hih (by simp [isOk])

theorem process_races_ok_inv {w : World} {res : ExtractionResult}
    (h : (process_races w).1 = .ok res) :
    w.chromeOk = true ∧ w.navOk = true ∧
    ∃ pi0 races, get_profile_info w.profile = .ok pi0 ∧
      run_races w.sessionPages (get_session_data w.profile.sessions).1
        (get_session_data w.profile.sessions).2 (race_ids_of w.profile.sessions) = .ok races ∧
      res = { profile_info := { pi0 with totalRaces := (race_ids_of w.profile.sessions).length },
              races_data := races } := by
  cases hcb : w.chromeOk with
  | false =>
    simp only [process_races, hcb, eq_self_iff_true, if_true] at h
    exact Except.noConfusion h
  | true =>
    cases hnb : w.navOk with
    | false =>
      simp only [process_races, hcb, hnb, Bool.true_eq_false, if_false,
        eq_self_iff_true, if_true] at h
      exact Except.noConfusion h
    | true =>
      simp only [process_races, hcb, hnb, Bool.true_eq_false, if_false] at h
      cases hp : get_profile_info w.profile with
      | error e =>
        simp only [hp] at h
        exact Except.noConfusion h
      | ok pi0 =>
        simp only [hp] at h
        cases hr : run_races w.sessionPages (get_session_data w.profile.sessions).1
            (get_session_data w.profile.sessions).2 (race_ids_of w.profile.sessions) with
        | error e =>
          simp only [hr] at h
          exact Except.noConfusion h
        | ok races =>
          simp only [hr, Except.ok.injEq] at h
          exact ⟨rfl, rfl, pi0, races, rfl, rfl, h.symm⟩

/-- C7: the browser session resource is released exactly once whenever it was
created (Chrome launch succeeded), on every exit path; it is never released
when it was not created. -/
theorem C7_driver_quit_once (w : World) :
    (process_races w).2 = if w.chromeOk = true then 1 else 0 := by
  cases hcb : w.chromeOk with
  | false => simp [process_races, hcb]
  | true =>
    cases hnb : w.navOk with
    | false => simp [process_races, hcb, hnb]
    | true =>
      cases hp : get_profile_info w.profile with
      | error e => simp [process_races, hcb, hnb, hp]
      | ok pi0 =>
        cases hr : run_races w.sessionPages (get_session_data w.profile.sessions).1
            (get_session_data w.profile.sessions).2 (race_ids_of w.profile.sessions) with
        | error e => simp [process_races, hcb, hnb, hp, hr]
        | ok races => simp [process_races, hcb, hnb, hp, hr]

/-- C6: if any enumerated session's lap-data extraction fails, the whole
pipeline run fails; no partial `races_data` is returned. -/
theorem C6_session_failure_fails_pipeline (w : World) (rid : String) (e : ScrapeError)
    (hmem : rid ∈ race_ids_of w.profile.sessions)
    (hfail : get_lap_data w.sessionPages (get_session_data w.profile.sessions).1
      (get_session_data w.profile.sessions).2 rid = .error e) :
    isOk (process_races w).1 = false := by
  cases hok : (process_races w).1 with
  | error e2 => rfl
  | ok res =>
    obtain ⟨_, _, pi0, races, _, hr, _⟩ := process_races_ok_inv hok
    have hfails := run_races_fails hmem hfail
    rw [hr] at hfails
    exact absurd hfails (by simp [isOk])

/-- C5: the records of `races_data` are in exactly the order in which session
containers were discovered on the profile page. -/
theorem C5_races_order (w : World) (res : ExtractionResult)
    (h : (process_races w).1 = .ok res) :
    res.races_data.map RaceInfo.race_id = race_ids_of w.profile.sessions := by
  obtain ⟨_, _, pi0, races, _, hr, hres⟩ := process_races_ok_inv h
  subst hres
  dsimp only
  exact run_races_ok_map hr

theorem length_race_ids (sessions : List SessionContainer) :
    (race_ids_of sessions).length = sessions.countP has_uuid := by
  induction sessions with
  | nil => rfl
  | cons s rest ih =>
    cases hu : s.uuid with
    | none =>
      simp [race_ids_of, has_uuid, hu, List.countP_cons]
      exact ih
    | some u =>
      by_cases he : u = ""
      · subst he
        simp [race_ids_of, has_uuid, hu, List.countP_cons]
        exact ih
      · simp [race_ids_of, has_uuid, hu, he, List.countP_cons]
        exact ih

/-- C9: on success, `Total Races` equals the number of records in `races_data`,
and both equal the number of session containers carrying a non-empty
session-uuid attribute. -/
theorem C9_total_races_counts (w : World) (res : ExtractionResult)
    (h : (process_races w).1 = .ok res) :
    res.profile_info.totalRaces = res.races_data.length ∧
    res.races_data.length = w.profile.sessions.countP has_uuid := by
  obtain ⟨_, _, pi0, races, _, hr, hres⟩ := process_races_ok_inv h
  subst hres
  dsimp only
  have hlen : races.length = (race_ids_of w.profile.sessions).length := by
    rw [← run_races_ok_map hr, List.length_map]
  exact ⟨hlen.symm, by rw [hlen, length_race_ids]⟩

/-- Witness for C5: a successful run over two sessions, the second with an
empty lap table; the record order matches the container order. -/
theorem C5_races_order_witness :
    (process_races worldC5).1 = .ok resC5 ∧
    resC5.races_data.map RaceInfo.race_id = race_ids_of worldC5.profile.sessions :=
  ⟨rfl, C5_races_order worldC5 resC5 rfl⟩

/-- Witness for C6: the only session's detail page never renders its lap table,
so its extraction fails and the whole pipeline run fails. -/
theorem C6_session_failure_fails_pipeline_witness :
    ("s1" ∈ race_ids_of worldC6.profile.sessions) ∧
    get_lap_data worldC6.sessionPages (get_session_data worldC6.profile.sessions).1
      (get_session_data worldC6.profile.sessions).2 "s1" =
        .error (.timeoutError "table_content.session_content") ∧
    isOk (process_races worldC6).1 = false :=
  ⟨by decide, rfl,
    C6_session_failure_fails_pipeline worldC6 "s1"
      (.timeoutError "table_content.session_content") (by decide) rfl⟩

/-- Witness for C9: one container with a real uuid, one with an empty uuid
attribute and one without the attribute; only the first one counts. -/
theorem C9_total_races_counts_witness :
    (process_races worldC9).1 = .ok resC9 ∧
    (resC9.profile_info.totalRaces = resC9.races_data.length ∧
     resC9.races_data.length = worldC9.profile.sessions.countP has_uuid) :=
  ⟨rfl, C9_total_races_counts worldC9 resC9 rfl⟩

theorem get_profile_info_ok {p : ProfilePage} {pinfo : ProfileInfo}
    (h : get_profile_info p = .ok pinfo) :
    ∃ nm spans loc d t f, p.username = some nm ∧ p.moreInfoSpans = some spans ∧
      spans.head? = some loc ∧ p.total_distance = some d ∧ p.total_time = some t ∧
      p.favorite_track = some f ∧
      pinfo = { driverName := pyStrip nm, location := pyStrip loc,
                statistics := [("Total Distance", pyStrip d),
                               ("Total Drive Hours", pyStrip t),
                               ("Preferred Track", pyStrip f)],
                totalRaces := 0 } := by
  cases hu : p.username with
  | none =>
    simp only [get_profile_info, hu] at h
    exact Except.noConfusion h
  | some nm =>
    simp only [get_profile_info, hu] at h
    cases hs : p.moreInfoSpans with
    | none =>
      simp only [hs] at h
      exact Except.noConfusion h
    | some spans =>
      simp only [hs] at h
      cases hh : spans.head? with
      | none =>
        simp only [hh] at h
        exact Except.noConfusion h
      | some loc =>
        simp only [hh] at h
        cases hd : p.total_distance with
        | none =>
          simp only [hd] at h
          exact Except.noConfusion h
        | some d =>
          simp only [hd] at h
          cases htm : p.total_time with
          | none =>
            simp only [htm] at h
            exact Except.noConfusion h
          | some t =>
            simp only [htm] at h
            cases hf : p.favorite_track with
            | none =>
              simp only [hf] at h
              exact Except.noConfusion h
            | some f =>
              simp only [hf, Except.ok.injEq] at h
              exact ⟨nm, spans, loc, d, t, f, rfl, rfl, hh, rfl, rfl, rfl, h.symm⟩

/-- C3 counterexample: for a profile document lacking the driver-name marker
the API responds with HTTP 500, not the 404 the claim states. -/
theorem C3_counterexample :
    statusOf (get_race_data worldC3) = some 500 ∧ (500 : Nat) ≠ 404 :=
  ⟨rfl, by decide⟩

/-- C3 (amended): for every profile document lacking the driver-name marker
element, reached with a working browser, the pipeline fails with the
missing-element error and the API responds with HTTP 500 carrying the error
message as detail; the code has no `ProfileNotFoundError` and no 404 path. -/
theorem C3_missing_username_500 (w : World)
    (hc : w.chromeOk = true) (hn : w.navOk = true)
    (hu : w.profile.username = none) :
    get_race_data w = .failure 500 (errDetail (.noSuchElement "username")) := by
  have herr : (process_races w).1 = .error (.noSuchElement "username") := by
    simp only [process_races, hc, hn, Bool.true_eq_false, if_false]
    simp only [get_profile_info, hu]
  simp only [get_race_data, herr]

/-- Witness for C3's amended theorem at the concrete marker-less profile. -/
theorem C3_missing_username_500_witness :
    worldC3.chromeOk = true ∧ worldC3.navOk = true ∧
    worldC3.profile.username = none ∧
    get_race_data worldC3 = .failure 500 (errDetail (.noSuchElement "username")) :=
  ⟨rfl, rfl, rfl, C3_missing_username_500 worldC3 rfl rfl rfl⟩

/-- C8 counterexample: for a location text node ending in a comma-space
artifact, the stored location keeps the comma — the artifact is not removed. -/
theorem C8_counterexample :
    profileLocation (get_profile_info pageC8) = some "London," ∧
    ("London," : String) ≠ "London" :=
  ⟨rfl, by decide⟩

/-- C8 (amended): the stored location is the first span text of the
profile-more-info block with surrounding whitespace stripped; a trailing comma
survives (`.strip()` removes only whitespace). -/
theorem C8_location_stripped (p : ProfilePage) (spans : List String) (loc : String)
    (pinfo : ProfileInfo)
    (hspans : p.moreInfoSpans = some spans) (hhead : spans.head? = some loc)
    (h : get_profile_info p = .ok pinfo) :
    pinfo.location = pyStrip loc := by
  obtain ⟨nm, spans', loc', d, t, f, _, hspans', hhead', _, _, _, hpi⟩ := get_profile_info_ok h
  rw [hspans] at hspans'
  have hsp : spans = spans' := Option.some.inj hspans'
  subst hsp
  rw [hhead] at hhead'
  have hlc : loc = loc' := Option.some.inj hhead'
  subst hlc
  subst hpi
  rfl

/-- Witness for C8's amended theorem at the concrete profile page. -/
theorem C8_location_stripped_witness :
    pageC8.moreInfoSpans = some [" London, "] ∧
    ([" London, "] : List String).head? = some " London, " ∧
    get_profile_info pageC8 = .ok infoC8 ∧
    infoC8.location = pyStrip " London, " :=
  ⟨rfl, rfl, rfl, C8_location_stripped pageC8 [" London, "] " London, " infoC8 rfl rfl rfl⟩

/-- C4 counterexample: a session container missing only its position element,
with a perfectly good date, still yields a record whose date and time-of-day
are the sentinel: fields other than the missing one are affected, contrary to
the claim. -/
theorem C4_counterexample :
    sessC4.positionText = none ∧ sessC4.dateSpans = some ["Jan 1", "10:00"] ∧
    firstRaceDate (process_races worldC4).1 = some "Not found" ∧
    ("Not found" : String) ≠ "Jan 1" :=
  ⟨rfl, rfl, rfl, by decide⟩

/-- C4 (amended): for a session whose container is missing summary
sub-elements, the session still appears in races_data; the non-summary fields
(race id, track, kart, lap times, best time) are exactly those of a run with
no summary data at all, hence unaffected; a missing or short date element with
the position present blanks exactly date and time-of-day; but a missing
position element blanks position, date and time-of-day together, because the
summary loop abandons the container at its first missing element. -/
theorem C4_missing_summary (s : SessionContainer) (u : String)
    (pages : List (String × SessionPage)) (info : RaceInfo)
    (hu : s.uuid = some u)
    (h : get_lap_data pages (get_session_data [s]).1 (get_session_data [s]).2 u = .ok info) :
    ∃ bare, get_lap_data pages [] [] u = .ok bare ∧
      info.race_id = bare.race_id ∧ info.track = bare.track ∧ info.kart = bare.kart ∧
      info.lap_times = bare.lap_times ∧ info.best_time = bare.best_time ∧
      (s.positionText = none →
        info.position = "Not found" ∧ info.date = "Not found" ∧ info.time = "Not found") ∧
      (∀ ptxt, s.positionText = some ptxt → info.position = pyStrip ptxt) ∧
      (∀ ptxt, s.positionText = some ptxt → dateShort s = true →
        info.date = "Not found" ∧ info.time = "Not found") ∧
      (∀ ptxt d t rest, s.positionText = some ptxt → s.dateSpans = some (d :: t :: rest) →
        info.date = pyStrip d ∧ info.time = pyStrip t) := by
  obtain ⟨page, tk, tn, kd, hp, ht, htk, htn, hkd, hinfo⟩ := get_lap_data_ok h
  subst hinfo
  refine ⟨{ race_id := u, position := "Not found", date := "Not found", time := "Not found",
            track := pyStrip tn, kart := pyStrip kd,
            lap_times := extract_lap_times page.lapRows,
            best_time := best_time_of (extract_lap_times page.lapRows) }, ?_,
          rfl, rfl, rfl, rfl, rfl, ?_, ?_, ?_, ?_⟩
  · simp only [get_lap_data, hp, ht, Bool.true_eq_false, if_false, htk, htn, hkd]
    rfl
  · intro hpos
    simp only [get_session_data, List.foldl, session_step, hpos]
    exact ⟨rfl, rfl, rfl⟩
  · intro ptxt hpos
    cases hds : s.dateSpans with
    | none =>
      simp only [get_session_data, List.foldl, session_step, hpos, hds, hu,
        List.lookup, beq_self_eq_true]
      rfl
    | some spans =>
      cases spans with
      | nil =>
        simp only [get_session_data, List.foldl, session_step, hpos, hds, hu,
          List.lookup, beq_self_eq_true]
        rfl
      | cons d rest =>
        cases rest with
        | nil =>
          simp only [get_session_data, List.foldl, session_step, hpos, hds, hu,
            List.lookup, beq_self_eq_true]
          rfl
        | cons t rest2 =>
          simp only [get_session_data, List.foldl, session_step, hpos, hds, hu,
            List.lookup, beq_self_eq_true]
          rfl
  · intro ptxt hpos hshort
    cases hds : s.dateSpans with
    | none =>
      simp only [get_session_data, List.foldl, session_step, hpos, hds]
      exact ⟨rfl, rfl⟩
    | some spans =>
      cases spans with
      | nil =>
        simp only [get_session_data, List.foldl, session_step, hpos, hds]
        exact ⟨rfl, rfl⟩
      | cons d rest =>
        cases rest with
        | nil =>
          simp only [get_session_data, List.foldl, session_step, hpos, hds]
          exact ⟨rfl, rfl⟩
        | cons t rest2 =>
          rw [dateShort, hds] at hshort
          exact Bool.noConfusion hshort
  · intro ptxt d t rest hpos hds
    simp only [get_session_data, List.foldl, session_step, hpos, hds, hu,
      List.lookup, beq_self_eq_true]
    exact ⟨rfl, rfl⟩

/-- Witness for C4's amended theorem: a container with a position but no date
element keeps its position and gets the sentinel for date and time only. -/
theorem C4_missing_summary_witness :
    sessC4w.uuid = some "w1" ∧
    get_lap_data pagesC4w (get_session_data [sessC4w]).1
      (get_session_data [sessC4w]).2 "w1" = .ok infoC4w ∧
    (∃ bare, get_lap_data pagesC4w [] [] "w1" = .ok bare ∧
      infoC4w.race_id = bare.race_id ∧ infoC4w.track = bare.track ∧
      infoC4w.kart = bare.kart ∧ infoC4w.lap_times = bare.lap_times ∧
      infoC4w.best_time = bare.best_time ∧
      (sessC4w.positionText = none →
        infoC4w.position = "Not found" ∧ infoC4w.date = "Not found" ∧
        infoC4w.time = "Not found") ∧
      (∀ ptxt, sessC4w.positionText = some ptxt → infoC4w.position = pyStrip ptxt) ∧
      (∀ ptxt, sessC4w.positionText = some ptxt → dateShort sessC4w = true →
        infoC4w.date = "Not found" ∧ infoC4w.time = "Not found") ∧
      (∀ ptxt d t rest, sessC4w.positionText = some ptxt →
        sessC4w.dateSpans = some (d :: t :: rest) →
        infoC4w.date = pyStrip d ∧ infoC4w.time = pyStrip t)) :=
  ⟨rfl, rfl, C4_missing_summary sessC4w "w1" pagesC4w infoC4w rfl rfl⟩

end RaceFacer
